import Mathlib

/-!
Verification of the UNSW-NB15 cleaning pipeline
(`unsw_nb15-preprocessing/clean_unsw_nb15.py`).

The Python program reads headerless CSV parts under a declared source
header (`UNSW_HEADER`), maps each chunk to a standard 18-column schema
(`map_unsw_to_standard`, using `coerce_numeric` and
`unify_label_attack`), applies a non-negativity sanity pass, and a
driver (`main`) streams chunks of every eligible file into one output.

The development below is a shallow embedding of that program:

* a pandas cell is `Cell`: the column may be absent from the frame
  (`absent`, the `df.get` default path), the value may be missing
  (`na`, i.e. NaN / pd.NA), or it is a string or an integer (columns
  parsed as numeric by `read_csv` hold numbers; text columns strings);
* floating point is embedded as `ℚ` (exact; the program performs only
  parsing, addition and sign comparison on these values, and none of
  the verified claims involve rounding, overflow or infinities);
* `pd.to_numeric(_, errors := coerce)` on one cell is `coerce_numeric`,
  with plain decimal numerals parsed by `to_numeric` (scientific
  notation is not needed by any claim and is left out);
* a raw row carries exactly the source columns the mapper reads
  (`srcip, sport, dstip, dsport, proto, state, dur, sbytes, dbytes,
  spkts, dpkts, stime, service, attack_cat, label`); the remaining
  declared columns are never read nor written by the mapper;
* `unify_label_attack` in the source assigns into its argument frame
  (`df[...] = ...`) and returns that same frame; the embedding returns
  the updated row, and `map_unsw_to_standard` returns the pair
  (output row, state of the input row after the call) so that the
  in-place update is observable;
* the driver `main_run` works over an abstract list of already-globbed
  files, mirroring the sort, the feature-file exclusion, the fast-fail
  check (which in the source precedes any touch of the output path)
  and the write-once-header append loop.  Its per-chunk text cleaning
  trims string cells; infinity replacement is vacuous in the rational
  embedding.
-/

namespace CleanUnsw

/-- A pandas cell as seen by the mapper: column absent from the frame,
missing value, string value, or numeric (integer) value. -/
inductive Cell where
  | absent : Cell
  | na : Cell
  | strv : String → Cell
  | intv : Int → Cell
deriving DecidableEq

/-- The 46 column names the program declares for the headerless input
files (source lines 21-30; the comment there announces 49 columns, but
the list written in the code has 46 entries: `sloss`, `dloss` and
`service` of the canonical UNSW-NB15 schema are not among them). -/
def UNSW_HEADER : List String :=
  ["srcip", "sport", "dstip", "dsport", "proto", "state", "dur",
   "sbytes", "dbytes", "sttl", "dttl", "sload", "dload", "spkts", "dpkts",
   "swin", "dwin", "stcpb", "dtcpb", "smeansz", "dmeansz", "trans_depth",
   "response_body_len", "sjit", "djit", "stime", "ltime", "sintpkt", "dintpkt",
   "tcprtt", "synack", "ackdat", "is_sm_ips_ports", "ct_state_ttl",
   "ct_flw_http_mthd", "is_ftp_login", "ct_ftp_cmd", "ct_srv_src", "ct_srv_dst",
   "ct_dst_ltm", "ct_src_ltm", "ct_src_dport_ltm", "ct_dst_sport_ltm",
   "ct_dst_src_ltm", "attack_cat", "label"]

/-- The standardized output schema (source lines 33-38). -/
def STANDARD_COLS : List String :=
  ["timestamp", "src_ip", "src_port", "dst_ip", "dst_port", "proto",
   "duration", "bytes_out", "bytes_in", "pkts_out", "pkts_in",
   "flow_bytes_total", "flow_pkts_total", "state", "service",
   "label", "attack_cat", "dataset"]

/-- ASCII lower-casing of a string (`.str.lower()`). -/
def lowerStr (s : String) : String :=
  String.mk (s.data.map Char.toLower)

/-- Strip leading and trailing whitespace (`.str.strip()`). -/
def trimStr (s : String) : String :=
  String.mk (((s.data.dropWhile Char.isWhitespace).reverse.dropWhile
    Char.isWhitespace).reverse)

/-- Value of a digit string (callers guarantee every character is a
decimal digit). -/
def digitsToNat (l : List Char) : Nat :=
  l.foldl (fun n c => n * 10 + (c.toNat - 48)) 0

/-- Parse an unsigned decimal numeral, with an optional single decimal
point (`"500"`, `"1.5"`, `".5"`, `"5."`), to an exact rational. -/
def parseDecimal (l : List Char) : Option ℚ :=
  let ip := l.takeWhile (fun c => c != '.')
  match l.dropWhile (fun c => c != '.') with
  | [] =>
      if !ip.isEmpty && ip.all Char.isDigit then
        some (mkRat (digitsToNat ip) 1)
      else none
  | _ :: fp =>
      if (!ip.isEmpty || !fp.isEmpty) && ip.all Char.isDigit
          && fp.all Char.isDigit then
        some (mkRat (digitsToNat ip * 10 ^ fp.length + digitsToNat fp)
          (10 ^ fp.length))
      else none

/-- Executable negation on `ℚ` (kept in `mkRat` form). -/
def ratNeg (q : ℚ) : ℚ := mkRat (-(q.num)) q.den

/-- Executable addition on `ℚ`; proved equal to `+` below. -/
def ratAdd (a b : ℚ) : ℚ :=
  mkRat (a.num * (b.den : Int) + b.num * (a.den : Int)) (a.den * b.den)

/-- `pd.to_numeric(_, errors := coerce)` on one string: a signed decimal
numeral parses to its value, anything else is absorbed into the null
channel. -/
def to_numeric (s : String) : Option ℚ :=
  match s.data with
  | '-' :: rest => (parseDecimal rest).map ratNeg
  | '+' :: rest => parseDecimal rest
  | l => parseDecimal l

/-- `coerce_numeric` (source lines 43-45) on one cell: parsed number or
null; an absent column gives the scalar-`pd.NA` path of `df.get`, which
coerces to null. -/
def coerce_numeric : Cell → Option ℚ
  | Cell.absent => none
  | Cell.na => none
  | Cell.strv s => to_numeric s
  | Cell.intv n => some (mkRat n 1)

/-- `astype(str)` on one cell: NaN renders as the string `"nan"`, the
pd.NA of an absent-column default series as `"<NA>"`, a number as its
decimal spelling. -/
def astype_str : Cell → String
  | Cell.absent => "<NA>"
  | Cell.na => "nan"
  | Cell.strv s => s
  | Cell.intv n => toString n

/-- `.fillna(0)` on a nullable numeric value. -/
def fillna0 (v : Option ℚ) : ℚ := v.getD 0

/-- Python `astype(int)` on a float: truncation toward zero. -/
def truncInt (q : ℚ) : Int := q.num.tdiv q.den

/-- The label column value produced by `unify_label_attack` (source
lines 49-52): numeric coercion with nulls filled by 0, cast to int when
the column is present; the constant 0 when the column is absent. -/
def label_value : Cell → Int
  | Cell.absent => 0
  | Cell.na => 0
  | Cell.strv s =>
      match to_numeric s with
      | none => 0
      | some q => truncInt q
  | Cell.intv n => n

/-- The category normalization of `unify_label_attack` (source lines
57-61): stringify, strip, lower-case, replace the literals `"normal"`
and `"nan"` by `"benign"`.  The trailing `.fillna` of the source is the
identity here, since `astype(str)` leaves no null behind. -/
def normalize_cat (base : String) : String :=
  if lowerStr (trimStr base) = "normal" ∨ lowerStr (trimStr base) = "nan" then
    "benign"
  else lowerStr (trimStr base)

/-- The category column of `unify_label_attack`: the derived-or-provided
base value through `normalize_cat`. -/
def attack_value (ac : Cell) (lbl : Int) : String :=
  normalize_cat
    (match ac with
     | Cell.absent => if lbl = 1 then "attack" else "benign"
     | c => astype_str c)

/-- The source columns `map_unsw_to_standard` reads, as one row.  The
other declared columns are never touched by the mapper.  `service` is
listed because the mapper asks for it (`df.get("service", ...)`),
although the declared header never provides it. -/
structure RawRow where
  srcip : Cell
  sport : Cell
  dstip : Cell
  dsport : Cell
  proto : Cell
  state : Cell
  dur : Cell
  sbytes : Cell
  dbytes : Cell
  spkts : Cell
  dpkts : Cell
  stime : Cell
  service : Cell
  attack_cat : Cell
  label : Cell
deriving DecidableEq

/-- One row of the standardized output schema. -/
structure StdRow where
  timestamp : Option ℚ
  src_ip : Cell
  src_port : Option ℚ
  dst_ip : Cell
  dst_port : Option ℚ
  proto : String
  duration : Option ℚ
  bytes_out : Option ℚ
  bytes_in : Option ℚ
  pkts_out : Option ℚ
  pkts_in : Option ℚ
  flow_bytes_total : Option ℚ
  flow_pkts_total : Option ℚ
  state : String
  service : Cell
  label : Int
  attack_cat : String
  dataset : String
deriving DecidableEq

/-- `df.get(col, pd.Series(pd.NA))` for a verbatim copy: an absent
column contributes a null cell, otherwise the cell itself. -/
def series_get (c : Cell) : Cell :=
  match c with
  | Cell.absent => Cell.na
  | c => c

/-- `df.get("service", pd.Series("unknown"))`: an absent column
contributes the literal `"unknown"`, otherwise the cell itself. -/
def service_get (c : Cell) : Cell :=
  match c with
  | Cell.absent => Cell.strv "unknown"
  | c => c

/-- `unify_label_attack` assigns `df["label"]` and `df["attack_cat"]`
in place and returns the same frame: the input row after the call. -/
def unify_label_attack (r : RawRow) : RawRow :=
  { r with
    label := Cell.intv (label_value r.label)
    attack_cat := Cell.strv (attack_value r.attack_cat (label_value r.label)) }

/-- Field derivation of `map_unsw_to_standard` (source lines 66-96),
before the sanity pass.  The label and category columns are the ones
`unify_label_attack` wrote into the frame. -/
def map_pre_sanity (r : RawRow) : StdRow where
  timestamp := coerce_numeric r.stime
  src_ip := series_get r.srcip
  src_port := coerce_numeric r.sport
  dst_ip := series_get r.dstip
  dst_port := coerce_numeric r.dsport
  proto := lowerStr (astype_str r.proto)
  duration := coerce_numeric r.dur
  bytes_out := coerce_numeric r.sbytes
  bytes_in := coerce_numeric r.dbytes
  pkts_out := coerce_numeric r.spkts
  pkts_in := coerce_numeric r.dpkts
  flow_bytes_total :=
    some (ratAdd (fillna0 (coerce_numeric r.sbytes))
      (fillna0 (coerce_numeric r.dbytes)))
  flow_pkts_total :=
    some (ratAdd (fillna0 (coerce_numeric r.spkts))
      (fillna0 (coerce_numeric r.dpkts)))
  state := lowerStr (astype_str r.state)
  service := service_get r.service
  label := label_value r.label
  attack_cat := attack_value r.attack_cat (label_value r.label)
  dataset := "UNSW-NB15"

/-- One step of the sanity pass: a strictly negative value is replaced
by null, anything else is kept. -/
def sanity_fix (v : Option ℚ) : Option ℚ :=
  match v with
  | none => none
  | some q => if q < 0 then none else some q

/-- The sanity pass (source lines 98-101): the seven constrained
numeric columns are nulled where negative; no other field changes and
no row is dropped. -/
def sanity_pass (s : StdRow) : StdRow :=
  { s with
    duration := sanity_fix s.duration
    bytes_out := sanity_fix s.bytes_out
    bytes_in := sanity_fix s.bytes_in
    pkts_out := sanity_fix s.pkts_out
    pkts_in := sanity_fix s.pkts_in
    flow_bytes_total := sanity_fix s.flow_bytes_total
    flow_pkts_total := sanity_fix s.flow_pkts_total }

/-- `map_unsw_to_standard` on one row: the output row, paired with the
state of the input row after the call (the source mutates its argument
through `unify_label_attack` and the frame of the caller keeps the change). -/
def map_unsw_to_standard (r : RawRow) : StdRow × RawRow :=
  (sanity_pass (map_pre_sanity r), unify_label_attack r)

/-- One already-globbed input file: its name and its rows, grouped into
the chunks `read_csv(..., chunksize := ...)` yields. -/
structure InputFile where
  name : String
  chunks : List (List RawRow)
deriving DecidableEq

/-- Is `pat` a contiguous subsequence of `l`? -/
def containsSeq (pat : List Char) : List Char → Bool
  | [] => pat.isEmpty
  | c :: rest => pat.isPrefixOf (c :: rest) || containsSeq pat rest

/-- The feature-file exclusion of the driver: `"feature" in f.name.lower()`. -/
def isFeatureName (s : String) : Bool :=
  containsSeq "feature".data (lowerStr s).data

/-- Stable insertion into a name-sorted file list. -/
def sortedInsert (a : InputFile) : List InputFile → List InputFile
  | [] => [a]
  | x :: xs => if a.name ≤ x.name then a :: x :: xs else x :: sortedInsert a xs

/-- Stable sort of the globbed files by name (`sorted(...)`). -/
def sortFiles : List InputFile → List InputFile
  | [] => []
  | x :: xs => sortedInsert x (sortFiles xs)

/-- The eligible source files of a run: the glob matches, sorted by
name, with feature-description files excluded (source lines 117-118). -/
def eligible_files (files : List InputFile) : List InputFile :=
  (sortFiles files).filter (fun f => !(isFeatureName f.name))

/-- The per-chunk text cleaning of the driver: string cells are stripped of
surrounding whitespace (source lines 140-141); the infinity
replacement of line 143 is vacuous in the exact rational embedding. -/
def clean_cell (c : Cell) : Cell :=
  match c with
  | Cell.strv s => Cell.strv (trimStr s)
  | c => c

/-- `clean_cell` over every column of one row. -/
def clean_row (r : RawRow) : RawRow where
  srcip := clean_cell r.srcip
  sport := clean_cell r.sport
  dstip := clean_cell r.dstip
  dsport := clean_cell r.dsport
  proto := clean_cell r.proto
  state := clean_cell r.state
  dur := clean_cell r.dur
  sbytes := clean_cell r.sbytes
  dbytes := clean_cell r.dbytes
  spkts := clean_cell r.spkts
  dpkts := clean_cell r.dpkts
  stime := clean_cell r.stime
  service := clean_cell r.service
  attack_cat := clean_cell r.attack_cat
  label := clean_cell r.label

/-- One `to_csv` call of the driver loop: write-or-append mode, whether
the header row is emitted, and the rows written. -/
structure WriteOp where
  overwrite : Bool
  header : Bool
  rows : List StdRow
deriving DecidableEq

/-- One chunk through the cleaning and the Schema Mapper. -/
def map_chunk (rows : List RawRow) : List StdRow :=
  rows.map (fun r => (map_unsw_to_standard (clean_row r)).1)

/-- The append loop: the first chunk written establishes the file and
its header, every later chunk appends without a header. -/
def write_loop (chunks : List (List RawRow)) (first : Bool) : List WriteOp :=
  match chunks with
  | [] => []
  | c :: rest =>
      { overwrite := first, header := first, rows := map_chunk c }
        :: write_loop rest false

/-- Outcome of one driver run: a fatal exit (raised before the output
path is created or touched), or the ordered write operations together
with the reported total row count. -/
inductive RunResult where
  | fatal : String → RunResult
  | ok : List WriteOp → Nat → RunResult
deriving DecidableEq

/-- The writes an outcome performed: a fatal exit performed none. -/
def run_writes (res : RunResult) : List WriteOp :=
  match res with
  | RunResult.fatal _ => []
  | RunResult.ok w _ => w

/-- The driver `main` (source lines 108-156) over the abstract input:
discover eligible files; with none, exit fatally before any output
artifact exists; otherwise stream the chunks of every file, in file order,
through the mapper into the write loop.  (The source message carries
the input directory; the embedding keeps the constant part.) -/
def main_run (files : List InputFile) : RunResult :=
  let fs := eligible_files files
  if fs = [] then RunResult.fatal "No UNSW-NB15 CSV files found"
  else
    let chunks := (fs.map (fun f => f.chunks)).flatten
    RunResult.ok (write_loop chunks true) ((chunks.map List.length).sum)

/-- A raw row with every mapped column present but missing, and the
`service` column absent, as under the declared header. -/
def blankRow : RawRow where
  srcip := Cell.na
  sport := Cell.na
  dstip := Cell.na
  dsport := Cell.na
  proto := Cell.na
  state := Cell.na
  dur := Cell.na
  sbytes := Cell.na
  dbytes := Cell.na
  spkts := Cell.na
  dpkts := Cell.na
  stime := Cell.na
  service := Cell.absent
  attack_cat := Cell.na
  label := Cell.na

/-- The scenario row of the spec: `srcip=10.0.0.1, sport=80, dstip=10.0.0.2,
dsport=443, proto=TCP, state=FIN, dur=1.5, sbytes=500, dbytes=-20,
spkts=5, dpkts=3, stime=1000000`, no label column, `attack_cat=Normal`. -/
def scenarioRow : RawRow where
  srcip := Cell.strv "10.0.0.1"
  sport := Cell.strv "80"
  dstip := Cell.strv "10.0.0.2"
  dsport := Cell.strv "443"
  proto := Cell.strv "TCP"
  state := Cell.strv "FIN"
  dur := Cell.strv "1.5"
  sbytes := Cell.strv "500"
  dbytes := Cell.strv "-20"
  spkts := Cell.strv "5"
  dpkts := Cell.strv "3"
  stime := Cell.strv "1000000"
  service := Cell.absent
  attack_cat := Cell.strv "Normal"
  label := Cell.absent

/-- A raw row whose label field holds the parseable numeral `"2"`. -/
def labelTwoRow : RawRow :=
  { blankRow with label := Cell.strv "2" }

/-- A raw row whose attack-category field is a whitespace-only string. -/
def blankCatRow : RawRow :=
  { blankRow with attack_cat := Cell.strv " " }

/-- A raw row whose label field holds the string `"1"`. -/
def labelOneRow : RawRow :=
  { blankRow with label := Cell.strv "1", attack_cat := Cell.strv "Exploits" }

/-- A raw row with label `"1"` and no attack-category column at all. -/
def labelOneBlankCatRow : RawRow :=
  { blankRow with label := Cell.strv "1", attack_cat := Cell.absent }

/-- A globbed file whose name marks it as a feature-description file. -/
def featureFile : InputFile where
  name := "UNSW-NB15_features.csv"
  chunks := []

/-- A nullable numeric output value that satisfies the non-negativity
invariant: null, or a value at least zero. -/
def nonnegOrNull (v : Option ℚ) : Prop :=
  v = none ∨ ∃ q, v = some q ∧ 0 ≤ q

/-- A raw label cell is binary when the value `unify_label_attack`
would cast from it is 0 or 1 (unparseable and missing cells count,
since they are filled with 0). -/
def rawLabelBinary : Cell → Bool
  | Cell.strv s =>
      match to_numeric s with
      | none => true
      | some q => truncInt q == 0 || truncInt q == 1
  | Cell.intv n => n == 0 || n == 1
  | _ => true

theorem ratAdd_eq_add (a b : ℚ) : ratAdd a b = a + b := by
  have h := Rat.mkRat_add_mkRat a.num b.num a.den_nz b.den_nz
  rw [Rat.mkRat_self, Rat.mkRat_self] at h
  rw [ratAdd, ← h]

theorem sanity_fix_ok (v : Option ℚ) : nonnegOrNull (sanity_fix v) := by
  cases v with
  | none => exact Or.inl rfl
  | some q =>
      by_cases h : q < 0
      · exact Or.inl (by simp [sanity_fix, h])
      · exact Or.inr ⟨q, by simp [sanity_fix, h], le_of_not_lt h⟩

theorem normalize_cat_form (b : String) :
    ∃ t, normalize_cat b = lowerStr (trimStr t) := by
  by_cases h : lowerStr (trimStr b) = "normal" ∨ lowerStr (trimStr b) = "nan"
  · exact ⟨"benign", by rw [normalize_cat, if_pos h]; decide⟩
  · exact ⟨b, by rw [normalize_cat, if_neg h]⟩

theorem normalize_cat_ne_empty (b : String) (hb : lowerStr (trimStr b) ≠ "") :
    normalize_cat b ≠ "" := by
  by_cases h : lowerStr (trimStr b) = "normal" ∨ lowerStr (trimStr b) = "nan"
  · rw [normalize_cat, if_pos h]; decide
  · rw [normalize_cat, if_neg h]; exact hb

/-- C1 (counterexample): on the scenario row the code derives
`flow_bytes_total = 480.0` (the pre-sanity sum `500 + (-20)`), not the
`500.0` the claim states. -/
theorem C1_counterexample :
    (map_unsw_to_standard scenarioRow).1.flow_bytes_total = some (480 : ℚ)
      ∧ some (480 : ℚ) ≠ some (500 : ℚ) := by
  decide

/-- C1 (amended): the Schema Mapper sends the scenario row
(`srcip=10.0.0.1, sport=80, dstip=10.0.0.2, dsport=443, proto=TCP,
state=FIN, dur=1.5, sbytes=500, dbytes=-20, spkts=5, dpkts=3,
stime=1000000`, label column absent, `attack_cat=Normal`) to exactly
the output row `timestamp=1000000.0, src_ip=10.0.0.1, src_port=80,
dst_ip=10.0.0.2, dst_port=443, proto=tcp, duration=1.5, bytes_out=500,
bytes_in=null, pkts_out=5, pkts_in=3, flow_bytes_total=480.0,
flow_pkts_total=8.0, state=fin, service=unknown, label=0,
attack_cat=benign, dataset=UNSW-NB15`. -/
theorem C1_scenario :
    (map_unsw_to_standard scenarioRow).1 =
      { timestamp := some (1000000 : ℚ)
        src_ip := Cell.strv "10.0.0.1"
        src_port := some (80 : ℚ)
        dst_ip := Cell.strv "10.0.0.2"
        dst_port := some (443 : ℚ)
        proto := "tcp"
        duration := some (mkRat 3 2)
        bytes_out := some (500 : ℚ)
        bytes_in := none
        pkts_out := some (5 : ℚ)
        pkts_in := some (3 : ℚ)
        flow_bytes_total := some (480 : ℚ)
        flow_pkts_total := some (8 : ℚ)
        state := "fin"
        service := Cell.strv "unknown"
        label := 0
        attack_cat := "benign"
        dataset := "UNSW-NB15" } := by
  decide

/-- C2: for every raw row, the derived `flow_bytes_total` is exactly the
sum of the coerced, pre-sanity-pass `bytes_out` and `bytes_in` with null
operands as zero, and is non-null at the derivation step; analogously
for `flow_pkts_total`; and the mapper output is precisely the sanity
pass applied after this derivation. -/
theorem C2_totals_consistency (r : RawRow) :
    (map_pre_sanity r).flow_bytes_total
        = some (fillna0 ((map_pre_sanity r).bytes_out)
            + fillna0 ((map_pre_sanity r).bytes_in))
      ∧ (map_pre_sanity r).flow_pkts_total
        = some (fillna0 ((map_pre_sanity r).pkts_out)
            + fillna0 ((map_pre_sanity r).pkts_in))
      ∧ (map_unsw_to_standard r).1 = sanity_pass (map_pre_sanity r) := by
  refine ⟨?_, ?_, rfl⟩ <;> simp [map_pre_sanity, ratAdd_eq_add]

/-- C3: the source header the program declares and assigns to every
headerless input file has 46 fields, not the 49 of the canonical
UNSW-NB15 schema announced by the comment above it (the names `sloss`,
`dloss` and `service` are missing from the list). -/
theorem C3_header_has_46_fields :
    UNSW_HEADER.length = 46 ∧ UNSW_HEADER.length ≠ 49 := by
  decide

/-- C4 (counterexample): the raw label `"2"` parses, so the integer
cast passes it through and the output label is 2, outside {0, 1}. -/
theorem C4_counterexample :
    labelTwoRow.label = Cell.strv "2"
      ∧ (map_unsw_to_standard labelTwoRow).1.label = 2
      ∧ ¬((map_unsw_to_standard labelTwoRow).1.label = 0
          ∨ (map_unsw_to_standard labelTwoRow).1.label = 1) := by
  decide

/-- C4 (amended): the output label is always the integer
`label_value` of the raw label cell, hence never null; missing or
absent raw labels give 0, as does a present but unparseable one; and
the label lies in {0, 1} whenever the raw label cell is binary (it is
not clamped there for other numeric raw labels). -/
theorem C4_label_integer (r : RawRow) :
    (map_unsw_to_standard r).1.label = label_value r.label
      ∧ ((r.label = Cell.na ∨ r.label = Cell.absent) →
          (map_unsw_to_standard r).1.label = 0)
      ∧ (∀ s, r.label = Cell.strv s → to_numeric s = none →
          (map_unsw_to_standard r).1.label = 0)
      ∧ (rawLabelBinary r.label = true →
          (map_unsw_to_standard r).1.label = 0
            ∨ (map_unsw_to_standard r).1.label = 1) := by
  refine ⟨rfl, ?_, ?_, ?_⟩
  · rintro (h | h) <;> simp [map_unsw_to_standard, sanity_pass,
      map_pre_sanity, label_value, h]
  · intro s hs hn
    simp [map_unsw_to_standard, sanity_pass, map_pre_sanity, label_value,
      hs, hn]
  · intro hb
    show label_value r.label = 0 ∨ label_value r.label = 1
    cases hl : r.label with
    | absent => exact Or.inl rfl
    | na => exact Or.inl rfl
    | strv s =>
        rw [hl] at hb
        cases hts : to_numeric s with
        | none => exact Or.inl (by simp [label_value, hts])
        | some q =>
            rw [rawLabelBinary, hts] at hb
            simp only [Bool.or_eq_true, beq_iff_eq] at hb
            rcases hb with h0 | h1
            · exact Or.inl (by simp [label_value, hts, h0])
            · exact Or.inr (by simp [label_value, hts, h1])
    | intv n =>
        rw [hl] at hb
        simp only [rawLabelBinary, Bool.or_eq_true, beq_iff_eq] at hb
        rcases hb with h0 | h1
        · exact Or.inl (by simp [label_value, h0])
        · exact Or.inr (by simp [label_value, h1])

/-- C4 (witness): on the concrete row with raw label `"1"` the amended
theorem yields a label in {0, 1}. -/
theorem C4_witness :
    (map_unsw_to_standard labelOneRow).1.label = 0
      ∨ (map_unsw_to_standard labelOneRow).1.label = 1 :=
  (C4_label_integer labelOneRow).2.2.2 (by decide)

/-- C5 (counterexample): a present attack-category value that is only
whitespace trims and lower-cases to the empty string, so the output
category is empty, refuting the non-emptiness part of the claim. -/
theorem C5_counterexample :
    blankCatRow.attack_cat = Cell.strv " "
      ∧ (map_unsw_to_standard blankCatRow).1.attack_cat = "" := by
  decide

/-- C5 (amended): the output category is always the strip-then-lower
image of some string; a missing raw value, and any present value whose
stripped lower-casing is the literal `"normal"` or `"nan"`, normalize
to `"benign"`; an absent category column derives `"attack"` where the
unified label is 1 and `"benign"` otherwise; and the output is
non-empty whenever the present raw value does not strip to the empty
string (non-emptiness is not guaranteed in that last case). -/
theorem C5_attack_cat (r : RawRow) :
    (∃ t, (map_unsw_to_standard r).1.attack_cat = lowerStr (trimStr t))
      ∧ (r.attack_cat = Cell.na →
          (map_unsw_to_standard r).1.attack_cat = "benign")
      ∧ (∀ s, r.attack_cat = Cell.strv s →
          (lowerStr (trimStr s) = "normal" ∨ lowerStr (trimStr s) = "nan") →
          (map_unsw_to_standard r).1.attack_cat = "benign")
      ∧ (r.attack_cat = Cell.absent →
          (map_unsw_to_standard r).1.attack_cat =
            (if label_value r.label = 1 then "attack" else "benign"))
      ∧ (∀ s, r.attack_cat = Cell.strv s → lowerStr (trimStr s) ≠ "" →
          (map_unsw_to_standard r).1.attack_cat ≠ "") := by
  have hout : (map_unsw_to_standard r).1.attack_cat
      = attack_value r.attack_cat (label_value r.label) := rfl
  refine ⟨?_, ?_, ?_, ?_, ?_⟩
  · rw [hout]
    exact normalize_cat_form _
  · intro h
    rw [hout, h]
    rfl
  · intro s hs hn
    rw [hout, hs]
    show normalize_cat s = "benign"
    rw [normalize_cat, if_pos hn]
  · intro h
    rw [hout, h]
    show normalize_cat (if label_value r.label = 1 then "attack" else "benign")
      = _
    by_cases hl : label_value r.label = 1
    · rw [if_pos hl]; decide
    · rw [if_neg hl]; decide
  · intro s hs hne
    rw [hout, hs]
    exact normalize_cat_ne_empty s hne

/-- C5 (witness): on the scenario row (raw category `"Normal"`) the
amended theorem yields `"benign"`, and on a row without the category
column and label `"1"` it yields `"attack"`. -/
theorem C5_witness :
    (map_unsw_to_standard scenarioRow).1.attack_cat = "benign"
      ∧ (map_unsw_to_standard labelOneBlankCatRow).1.attack_cat = "attack" := by
  constructor
  · exact (C5_attack_cat scenarioRow).2.2.1 "Normal" rfl (by decide)
  · have h := (C5_attack_cat labelOneBlankCatRow).2.2.2.1 rfl
    rw [h]
    decide

/-- C6 (counterexample): a row whose protocol and state cells are
missing is mapped to the literal string `"nan"` in both output fields
(the stringified NaN), not to a null marker as the claim states. -/
theorem C6_counterexample :
    blankRow.proto = Cell.na ∧ blankRow.state = Cell.na
      ∧ (map_unsw_to_standard blankRow).1.proto = "nan"
      ∧ (map_unsw_to_standard blankRow).1.state = "nan" := by
  decide

/-- C6 (amended): the output `proto` and `state` are always strings: a
present source value is lower-cased, but a missing one is rendered as
the literal string `"nan"` (an absent column as `"<na>"`), never as a
null marker. -/
theorem C6_proto_state (r : RawRow) :
    (∀ s, r.proto = Cell.strv s →
        (map_unsw_to_standard r).1.proto = lowerStr s)
      ∧ (r.proto = Cell.na → (map_unsw_to_standard r).1.proto = "nan")
      ∧ (r.proto = Cell.absent → (map_unsw_to_standard r).1.proto = "<na>")
      ∧ (∀ s, r.state = Cell.strv s →
          (map_unsw_to_standard r).1.state = lowerStr s)
      ∧ (r.state = Cell.na → (map_unsw_to_standard r).1.state = "nan")
      ∧ (r.state = Cell.absent → (map_unsw_to_standard r).1.state = "<na>") := by
  have hp : (map_unsw_to_standard r).1.proto = lowerStr (astype_str r.proto) :=
    rfl
  have hs : (map_unsw_to_standard r).1.state = lowerStr (astype_str r.state) :=
    rfl
  refine ⟨?_, ?_, ?_, ?_, ?_, ?_⟩
  · intro s h; rw [hp, h]; rfl
  · intro h; rw [hp, h]; decide
  · intro h; rw [hp, h]; decide
  · intro s h; rw [hs, h]; rfl
  · intro h; rw [hs, h]; decide
  · intro h; rw [hs, h]; decide

/-- C6 (witness): on the scenario row the amended theorem gives
`proto = tcp`, and on the all-missing row it gives the string `"nan"`. -/
theorem C6_witness :
    (map_unsw_to_standard scenarioRow).1.proto = lowerStr "TCP"
      ∧ (map_unsw_to_standard blankRow).1.state = "nan" :=
  ⟨(C6_proto_state scenarioRow).1 "TCP" rfl,
    (C6_proto_state blankRow).2.2.2.2.1 rfl⟩

/-- C7: in every mapper output row each of the seven constrained
numeric fields is null or at least zero; the mapper output is exactly
the sanity pass applied after the whole field derivation; and the
mapper keeps every row (a chunk maps to a chunk of the same length). -/
theorem C7_non_negativity :
    (∀ r : RawRow,
        nonnegOrNull (map_unsw_to_standard r).1.duration
          ∧ nonnegOrNull (map_unsw_to_standard r).1.bytes_out
          ∧ nonnegOrNull (map_unsw_to_standard r).1.bytes_in
          ∧ nonnegOrNull (map_unsw_to_standard r).1.pkts_out
          ∧ nonnegOrNull (map_unsw_to_standard r).1.pkts_in
          ∧ nonnegOrNull (map_unsw_to_standard r).1.flow_bytes_total
          ∧ nonnegOrNull (map_unsw_to_standard r).1.flow_pkts_total)
      ∧ (∀ r : RawRow,
          (map_unsw_to_standard r).1 = sanity_pass (map_pre_sanity r))
      ∧ (∀ rows : List RawRow, (map_chunk rows).length = rows.length) := by
  refine ⟨fun r => ?_, fun r => rfl, fun rows => ?_⟩
  · exact ⟨sanity_fix_ok ((map_pre_sanity r).duration),
      sanity_fix_ok ((map_pre_sanity r).bytes_out),
      sanity_fix_ok ((map_pre_sanity r).bytes_in),
      sanity_fix_ok ((map_pre_sanity r).pkts_out),
      sanity_fix_ok ((map_pre_sanity r).pkts_in),
      sanity_fix_ok ((map_pre_sanity r).flow_bytes_total),
      sanity_fix_ok ((map_pre_sanity r).flow_pkts_total)⟩
  · simp [map_chunk]

/-- C8: a run that discovers zero eligible source files (none globbed,
or all matches excluded as feature files) exits fatally, and its
outcome carries no write operation: no output artifact is created,
truncated or written. -/
theorem C8_fast_fail (files : List InputFile)
    (h : eligible_files files = []) :
    main_run files = RunResult.fatal "No UNSW-NB15 CSV files found"
      ∧ run_writes (main_run files) = [] := by
  constructor
  · simp [main_run, h]
  · simp [main_run, run_writes, h]

/-- C8 (witness): a directory whose only match is the feature file has
no eligible source, and the run is fatal with no writes. -/
theorem C8_witness :
    eligible_files [featureFile] = []
      ∧ main_run [featureFile] = RunResult.fatal "No UNSW-NB15 CSV files found"
      ∧ run_writes (main_run [featureFile]) = [] :=
  ⟨by decide, (C8_fast_fail [featureFile] (by decide)).1,
    (C8_fast_fail [featureFile] (by decide)).2⟩

/-- C9 (counterexample): the Schema Mapper is not free of side effects
on its input: on a row with raw label `"1"` the input batch comes back
changed (its label cell now holds the unified integer 1). -/
theorem C9_counterexample :
    labelOneRow.label = Cell.strv "1"
      ∧ (map_unsw_to_standard labelOneRow).2.label = Cell.intv 1
      ∧ (map_unsw_to_standard labelOneRow).2 ≠ labelOneRow := by
  decide

/-- C9 (amended): the mapper leaves every input field unchanged except
the label and attack-category columns, which it overwrites in place
(through `unify_label_attack`) with exactly the unified values that
also appear in the output row. -/
theorem C9_mutation_frame (r : RawRow) :
    (map_unsw_to_standard r).2.srcip = r.srcip
      ∧ (map_unsw_to_standard r).2.sport = r.sport
      ∧ (map_unsw_to_standard r).2.dstip = r.dstip
      ∧ (map_unsw_to_standard r).2.dsport = r.dsport
      ∧ (map_unsw_to_standard r).2.proto = r.proto
      ∧ (map_unsw_to_standard r).2.state = r.state
      ∧ (map_unsw_to_standard r).2.dur = r.dur
      ∧ (map_unsw_to_standard r).2.sbytes = r.sbytes
      ∧ (map_unsw_to_standard r).2.dbytes = r.dbytes
      ∧ (map_unsw_to_standard r).2.spkts = r.spkts
      ∧ (map_unsw_to_standard r).2.dpkts = r.dpkts
      ∧ (map_unsw_to_standard r).2.stime = r.stime
      ∧ (map_unsw_to_standard r).2.service = r.service
      ∧ (map_unsw_to_standard r).2.label
          = Cell.intv (map_unsw_to_standard r).1.label
      ∧ (map_unsw_to_standard r).2.attack_cat
          = Cell.strv (map_unsw_to_standard r).1.attack_cat :=
  ⟨rfl, rfl, rfl, rfl, rfl, rfl, rfl, rfl, rfl, rfl, rfl, rfl, rfl, rfl, rfl⟩

/-- C10: the declared source header contains no `service` column, and
every row whose service cell is absent (as is the case for every row
the driver reads under that header) is emitted with the literal
service `"unknown"`. -/
theorem C10_service_unknown :
    ("service" ∉ UNSW_HEADER)
      ∧ ∀ r : RawRow, r.service = Cell.absent →
          (map_unsw_to_standard r).1.service = Cell.strv "unknown" := by
  refine ⟨by decide, fun r h => ?_⟩
  show service_get r.service = Cell.strv "unknown"
  rw [h]
  rfl

/-- C10 (witness): the scenario row is read under the declared header,
so its service cell is absent and the emitted service is `"unknown"`. -/
theorem C10_witness :
    ("service" ∉ UNSW_HEADER)
      ∧ (map_unsw_to_standard scenarioRow).1.service = Cell.strv "unknown" :=
  ⟨C10_service_unknown.1, C10_service_unknown.2 scenarioRow rfl⟩

end CleanUnsw
